import Mathlib

/-!
Shallow embedding of `src/main.py` (a Hacker News live-feed client):
the `LRU` dedup cache, the `retry` decorator, the two resolvers
(`api_fetch`, `web_fetch`), the gated `fetch` closure produced by
`fetcher()`, the event parser `load_stories`, the per-connection
orchestrator `hackernews_feed`, and the reconnect loop `main`.

Network interaction is modelled by oracles: for each story id, `FetchEnv`
records what the outside world answers to each successive resolver attempt.
The asynchronous code is sequential in effect (one fetch at a time), so the
embedding is plain state passing.  The embedding instruments each `fetch`
call with the number of resolver-body executions, so that claims about
"resolution being attempted" are observable.
-/

namespace HNFeed

/-- Constant `FETCH_ATTEMPTS = 3` from the source. -/
def FETCH_ATTEMPTS : Nat := 3

/-- Capacity of the dedup cache, created as `LRU(1024)` in `hackernews_feed`. -/
def CAPACITY : Nat := 1024

/-- A resolved story record.  `api_fetch` returns the decoded JSON body of
the structured source as-is, so on that path all four fields (including
`time`) come from the source; `web_fetch` synthesizes the record itself.
Missing `title`/`url` are `none` (placeholder substitution happens in the
renderer, which is out of scope). -/
structure Story where
  id : Int
  title : Option String
  url : Option String
  time : Int
deriving DecidableEq, Repr

/-- The `LRU(OrderedDict)` dedup cache, modelled as its key sequence in
recency order: head = least recently touched (`next(iter(self))` in the
source), last = most recently touched (`move_to_end`).  The program only
ever stores `None` values (`self[key] = None` in `__contains__`), so the
keys alone capture the state. -/
structure LRU where
  maxsize : Nat
  order : List Int
deriving DecidableEq, Repr

/-- `LRU(n)`: a fresh empty cache. -/
def LRU.empty (n : Nat) : LRU := ⟨n, []⟩

/-- First half of `LRU.__setitem__`: an existing key is moved to the end
(`move_to_end`; its stored value is not replaced, which is invisible here
since every value is `None`), a new key is appended (`super().__setitem__`). -/
def LRU.touchOrInsert (c : LRU) (k : Int) : LRU :=
  if k ∈ c.order then ⟨c.maxsize, c.order.erase k ++ [k]⟩
  else ⟨c.maxsize, c.order ++ [k]⟩

/-- Second half of `LRU.__setitem__`: `if len(self) > self.maxsize`, the
oldest key (the head, `next(iter(self))`) is deleted. -/
def LRU.evict (c : LRU) : LRU :=
  if c.maxsize < c.order.length then ⟨c.maxsize, c.order.tail⟩ else c

/-- `LRU.__setitem__`: move an existing key to the end or append a new one,
then evict the oldest key if the size now exceeds `maxsize`. -/
def LRU.setitem (c : LRU) (k : Int) : LRU := (c.touchOrInsert k).evict

/-- `LRU.__contains__`: a hit refreshes the key's recency (`move_to_end`); a
miss inserts the key (`self[key] = None`, which dispatches to
`__setitem__`).  Returns the membership result from before the side effect,
together with the updated cache. -/
def LRU.containsCheck (c : LRU) (k : Int) : Bool × LRU :=
  if k ∈ c.order then (true, ⟨c.maxsize, c.order.erase k ++ [k]⟩)
  else (false, c.setitem k)

/-- One step of the `retry` decorator's `for _ in range(FETCH_ATTEMPTS)`
loop.  `op i` is the truthiness-collapsed result of the `i`-th execution of
the wrapped coroutine body: `none` stands for any falsy result (`None`, an
empty body) including a suppressed `ClientConnectorError`.  Returns the
final `result` variable together with the total number of calls made.  On a
truthy result the loop breaks at once; after the last falsy call the loop
ends and the falsy result is returned. -/
def retryGo (op : Nat → Option α) : Nat → Nat → Option α × Nat
  | 0, i => (none, i)
  | fuel + 1, i =>
    match op i with
    | some v => (some v, i + 1)
    | none => retryGo op fuel (i + 1)

/-- The `retry` decorator applied to an operation: the returned value and
the number of calls actually made (`FETCH_ATTEMPTS = 3` is positive, so the
`result` variable is always defined when the loop ends). -/
def retryRun (op : Nat → Option α) : Option α × Nat :=
  retryGo op FETCH_ATTEMPTS 0

/-- Value returned by the retry-wrapped operation. -/
def retry (op : Nat → Option α) : Option α := (retryRun op).1

/-- Number of calls the retry wrapper makes to the operation. -/
def retryCalls (op : Nat → Option α) : Nat := (retryRun op).2

/-- Oracle for one identifier's interaction with the outside world.
`api i` is the outcome of the `i`-th execution of the `api_fetch` body:
`some s` iff the GET returned status 200 with a truthy JSON body decoding to
`s`; `none` covers a non-200 status, a falsy body and a suppressed
connection error.  `web i` is the outcome of the `i`-th execution of the
`web_fetch` body up to the pattern match: `some (url, title)` holds the two
captured groups of `ITEM_PATTERN` on a 200 response, and `none` covers a
non-200 status, a connection error and a failed match. -/
structure FetchEnv where
  api : Nat → Option Story
  web : Nat → Option (String × String)

/-- `api_fetch(story_id)` (retry-wrapped): the structured resolver returns
the decoded body verbatim — including the source's own `time` field.
Result together with the number of attempt bodies executed. -/
def api_fetch (env : FetchEnv) : Option Story × Nat :=
  retryRun env.api

/-- The body of one `web_fetch` attempt: on a pattern match the record is
synthesized as `{'id': story_id, 'url': ..., 'title': ..., 'time': timestamp}`
where `timestamp` is the argument the orchestrator passed in. -/
def webAttempt (env : FetchEnv) (story_id timestamp : Int) (i : Nat) : Option Story :=
  (env.web i).map fun p => ⟨story_id, some p.2, some p.1, timestamp⟩

/-- `web_fetch(story_id, timestamp)` (retry-wrapped): the scrape resolver.
Result together with the number of attempt bodies executed. -/
def web_fetch (env : FetchEnv) (story_id timestamp : Int) : Option Story × Nat :=
  retryRun (webAttempt env story_id timestamp)

/-- Observable outcome of one call of the `fetch` closure from `fetcher()`:
the returned story (if any), how many `api_fetch` / `web_fetch` attempt
bodies ran, and the ids printed via `INVALID_MSG` (the notification carries
only the id; the surrounding color codes are presentation). -/
structure FetchOut where
  result : Option Story
  apiCalls : Nat
  webCalls : Nat
  invalid : List Int
deriving DecidableEq, Repr

/-- The closure `fetch(story_id, timestamp)`: while the sticky `enable`
attribute is unset (`getattr(fetch, 'enable', False)`) the call returns
`None` immediately — neither resolver is invoked and nothing is printed.
Otherwise `api_fetch` is tried and a truthy result returned; on failure
`web_fetch` is tried; if both fail, the invalid-identifier notification is
printed and `None` is returned. -/
def fetch (enable : Bool) (env : FetchEnv) (story_id timestamp : Int) : FetchOut :=
  if !enable then ⟨none, 0, 0, []⟩
  else
    match api_fetch env with
    | (some s, ac) => ⟨some s, ac, 0, []⟩
    | (none, ac) =>
      match web_fetch env story_id timestamp with
      | (some s, wc) => ⟨some s, ac, wc, []⟩
      | (none, wc) => ⟨none, ac, wc, [story_id]⟩

/-- Decoded shape of one SSE event's `data` string, as far as
`load_stories` inspects it.  `malformed`: `json.loads` raises (the data is
not valid JSON).  `nullish`: it decodes to a falsy value (`null`, `{}`,
`""`, …).  `batch ids`: it decodes to a truthy dict whose `data` entry is
the list `ids` (`[]` when the key is absent). -/
inductive EventData where
  | malformed
  | nullish
  | batch (ids : List Int)
deriving DecidableEq, Repr

/-- Python exceptions that escape the feed generator.  `load_stories` calls
`json.loads` outside any handler, so a malformed payload raises
`json.JSONDecodeError`, which `main` does not catch. -/
inductive PyError where
  | jsonDecodeError
deriving DecidableEq, Repr

/-- `load_stories(event_data)`: decode the payload, return no ids for a
falsy payload, otherwise sort the `data` list in place ascending
(`stories.sort()`) and yield from it.  A decode failure propagates as an
exception.  (`List.insertionSort` computes the same list as Python's sort
on integers: both are sorted permutations, which on `Int` are unique.) -/
def load_stories : EventData → Except PyError (List Int)
  | .malformed => .error .jsonDecodeError
  | .nullish => .ok []
  | .batch ids => .ok (List.insertionSort (· ≤ ·) ids)

/-- Mutable state of one run of the `hackernews_feed` generator, plus the
wall clock.  `clock` models `time.time()` as a strictly increasing counter,
read once per `fetch` call (the call site `fetch(story_id, time.time())`). -/
structure FeedState where
  cache : LRU
  enable : Bool
  clock : Int
deriving DecidableEq, Repr

/-- Accumulated observable output of the pipeline: the records yielded to
`announce`, the ids printed via `INVALID_MSG`, and — instrumentation — the
ids for which a resolver body was actually executed. -/
structure Output where
  stories : List Story
  invalid : List Int
  resolved : List Int
deriving DecidableEq, Repr

/-- Empty output accumulator. -/
def Output.empty : Output := ⟨[], [], []⟩

/-- The body of the `for story_id in load_stories(event.data)` loop for one
id: the dedup check `story_id in cache` always runs (inserting on a miss);
on a hit the loop continues; otherwise `fetch(story_id, time.time())` runs
and a truthy record is yielded. -/
def processId (world : Int → FetchEnv) (st : FeedState) (out : Output)
    (story_id : Int) : FeedState × Output :=
  let fc := st.cache.containsCheck story_id
  if fc.1 then (⟨fc.2, st.enable, st.clock⟩, out)
  else
    let fo := fetch st.enable (world story_id) story_id st.clock
    (⟨fc.2, st.enable, st.clock + 1⟩,
      ⟨(match fo.result with
        | some s => out.stories ++ [s]
        | none => out.stories),
       out.invalid ++ fo.invalid,
       if 0 < fo.apiCalls + fo.webCalls then out.resolved ++ [story_id]
       else out.resolved⟩)

/-- One iteration of the `async for event in aiosseclient(...)` loop: parse
the event, run the for-loop over the sorted ids, and — the loop body
containing no `break` — always run the loop's `else` clause, which sets
`fetch.enable = True`.  A parse error propagates out of the generator. -/
def processEvent (world : Int → FetchEnv) (st : FeedState) (out : Output)
    (ev : EventData) : Except PyError (FeedState × Output) :=
  match load_stories ev with
  | .error e => .error e
  | .ok ids =>
    let p := ids.foldl (fun q i => processId world q.1 q.2 i) (st, out)
    .ok (⟨p.1.cache, true, p.1.clock⟩, p.2)

/-- One call of `hackernews_feed()`: a fresh `cache = LRU(1024)` and a fresh
`fetch` closure (so the gate starts closed), then the events this connection
delivers, in order.  An epoch ends when the stream raises a timeout or
connection error, which is not an event; any finite event list may be cut
short that way. -/
def runEpoch (world : Int → FetchEnv) (clock : Int) (out : Output)
    (events : List EventData) : Except PyError (FeedState × Output) :=
  events.foldlM (fun p ev => processEvent world p.1 p.2 ev)
    (⟨LRU.empty CAPACITY, false, clock⟩, out)

/-- The `while True` loop of `main()`: each element of `epochs` is the list
of events one connection delivers before the stream raises `TimeoutError`
or `ClientConnectorError`; `main` catches exactly those two, sleeps, and
calls `hackernews_feed()` afresh — so every epoch restarts the cache and
the gate, and only the wall clock persists.  Any other exception (e.g. a
JSON decode error) escapes `main` and kills the process. -/
def runMain (world : Int → FetchEnv) (clock : Int)
    (epochs : List (List EventData)) : Except PyError (Int × Output) :=
  epochs.foldlM
    (fun p events => (runEpoch world p.1 p.2 events).map fun r => (r.1.clock, r.2))
    (clock, Output.empty)

/-- World in which every resolver attempt fails. -/
def worldNone : Int → FetchEnv := fun _ => ⟨fun _ => none, fun _ => none⟩

/-- World in which every id resolves on the first structured attempt, to a
record whose `time` field (as reported by the source) is 100. -/
def worldApi : Int → FetchEnv :=
  fun i => ⟨fun _ => some ⟨i, none, none, 100⟩, fun _ => none⟩

end HNFeed

namespace HNFeed

theorem retryGo_calls_le (op : Nat → Option α) :
    ∀ fuel i, (retryGo op fuel i).2 ≤ i + fuel := by
  intro fuel
  induction fuel with
  | zero => intro i; simp [retryGo]
  | succ n ih =>
    intro i
    cases h : op i with
    | some v => simp [retryGo, h]
    | none =>
      have := ih (i + 1)
      simp [retryGo, h]
      omega

theorem retryGo_some (op : Nat → Option α) :
    ∀ fuel i v j, retryGo op fuel i = (some v, j) → ∃ k, op k = some v := by
  intro fuel
  induction fuel with
  | zero => intro i v j h; simp [retryGo] at h
  | succ n ih =>
    intro i v j h
    cases hop : op i with
    | some w =>
      rw [retryGo, hop] at h
      exact ⟨i, by rw [hop, (Prod.mk.injEq _ _ _ _).mp h |>.1]⟩
    | none =>
      rw [retryGo, hop] at h
      exact ih (i + 1) v j h

theorem retryRun_eq (op : Nat → Option α) :
    retryRun op =
      match op 0 with
      | some v => (some v, 1)
      | none =>
        match op 1 with
        | some w => (some w, 2)
        | none => (op 2, 3) := by
  cases h0 : op 0 <;> cases h1 : op 1 <;> cases h2 : op 2 <;>
    simp [retryRun, FETCH_ATTEMPTS, retryGo, h0, h1, h2]

/-- Claim C8: the retry wrapper calls the wrapped operation at most 3 times,
returns the first truthy result immediately (having made exactly the calls
up to and including the succeeding one), and returns absent after the final
attempt also fails. -/
theorem retry_spec (op : Nat → Option α) :
    retryCalls op ≤ FETCH_ATTEMPTS ∧
    (∀ j v, j < FETCH_ATTEMPTS → (∀ k, k < j → op k = none) → op j = some v →
      retryRun op = (some v, j + 1)) ∧
    ((∀ k, k < FETCH_ATTEMPTS → op k = none) → retry op = none) := by
  refine ⟨?_, ?_, ?_⟩
  · have := retryGo_calls_le op FETCH_ATTEMPTS 0
    simpa [retryCalls, retryRun] using this
  · intro j v hj hk hv
    rw [retryRun_eq]
    have hj3 : j < 3 := hj
    interval_cases j
    · simp [hv]
    · simp [hk 0 (by omega), hv]
    · simp [hk 0 (by omega), hk 1 (by omega), hv]
  · intro h
    rw [retry, retryRun_eq]
    simp [h 0 (by decide), h 1 (by decide), h 2 (by decide)]

theorem retry_spec_witness :
    retryRun (fun i => if i = 1 then some 42 else none) = (some 42, 2) :=
  (retry_spec (fun i => if i = 1 then some 42 else none)).2.1 1 42 (by decide)
    (fun k hk => by interval_cases k; rfl) (by rfl)

end HNFeed
namespace HNFeed

theorem erase_append_length (l : List Int) (k : Int) (hk : k ∈ l) :
    (l.erase k ++ [k]).length = l.length := by
  have hpos : 0 < l.length := List.length_pos_of_mem hk
  simp [List.length_erase_of_mem hk]
  omega

theorem erase_append_nodup (l : List Int) (k : Int) (hnd : l.Nodup) :
    (l.erase k ++ [k]).Nodup := by
  rw [List.nodup_append]
  refine ⟨hnd.erase k, List.nodup_singleton k, ?_⟩
  intro a ha hb
  rw [List.mem_singleton] at hb
  subst hb
  exact ((hnd.mem_erase_iff).mp ha).1 rfl

theorem evict_of_le (m : Nat) (l : List Int) (h : l.length ≤ m) :
    LRU.evict ⟨m, l⟩ = ⟨m, l⟩ := by
  show (if m < l.length then (⟨m, l.tail⟩ : LRU) else ⟨m, l⟩) = ⟨m, l⟩
  rw [if_neg (by omega)]

theorem evict_of_gt (m : Nat) (l : List Int) (h : m < l.length) :
    LRU.evict ⟨m, l⟩ = ⟨m, l.tail⟩ := by
  show (if m < l.length then (⟨m, l.tail⟩ : LRU) else ⟨m, l⟩) = ⟨m, l.tail⟩
  rw [if_pos h]

theorem setitem_hit (c : LRU) (k : Int) (hk : k ∈ c.order)
    (hlen : c.order.length ≤ c.maxsize) :
    c.setitem k = ⟨c.maxsize, c.order.erase k ++ [k]⟩ := by
  rw [LRU.setitem, LRU.touchOrInsert, if_pos hk]
  exact evict_of_le _ _ (by rw [erase_append_length c.order k hk]; exact hlen)

theorem setitem_miss_room (c : LRU) (k : Int) (hk : k ∉ c.order)
    (hlt : c.order.length < c.maxsize) :
    c.setitem k = ⟨c.maxsize, c.order ++ [k]⟩ := by
  rw [LRU.setitem, LRU.touchOrInsert, if_neg hk]
  exact evict_of_le _ _ (by simp; omega)

theorem setitem_miss_full (c : LRU) (k : Int) (hk : k ∉ c.order)
    (hfull : c.maxsize ≤ c.order.length) :
    c.setitem k = ⟨c.maxsize, (c.order ++ [k]).tail⟩ := by
  rw [LRU.setitem, LRU.touchOrInsert, if_neg hk]
  exact evict_of_gt _ _ (by simp; omega)

theorem containsCheck_hit (c : LRU) (k : Int) (hk : k ∈ c.order) :
    c.containsCheck k = (true, ⟨c.maxsize, c.order.erase k ++ [k]⟩) := by
  rw [LRU.containsCheck, if_pos hk]

theorem containsCheck_miss (c : LRU) (k : Int) (hk : k ∉ c.order) :
    c.containsCheck k = (false, c.setitem k) := by
  rw [LRU.containsCheck, if_neg hk]

theorem setitem_bounded (c : LRU) (k : Int) (hnd : c.order.Nodup)
    (hlen : c.order.length ≤ c.maxsize) :
    (c.setitem k).order.length ≤ c.maxsize ∧ (c.setitem k).order.Nodup := by
  by_cases hk : k ∈ c.order
  · rw [setitem_hit c k hk hlen]
    exact ⟨by rw [erase_append_length c.order k hk]; exact hlen,
      erase_append_nodup c.order k hnd⟩
  · rcases Nat.lt_or_ge c.order.length c.maxsize with hlt | hge
    · rw [setitem_miss_room c k hk hlt]
      refine ⟨by simp; omega, ?_⟩
      rw [List.nodup_append]
      refine ⟨hnd, List.nodup_singleton k, ?_⟩
      intro a ha hb
      rw [List.mem_singleton] at hb
      subst hb
      exact hk ha
    · rw [setitem_miss_full c k hk hge]
      have htail : (c.order ++ [k]).tail.Nodup := by
        have hap : (c.order ++ [k]).Nodup := by
          rw [List.nodup_append]
          refine ⟨hnd, List.nodup_singleton k, ?_⟩
          intro a ha hb
          rw [List.mem_singleton] at hb
          subst hb
          exact hk ha
        exact hap.sublist (List.tail_sublist _)
      refine ⟨?_, htail⟩
      simp [List.length_tail]
      omega

/-- Claim C9: the dedup cache invariant. For a duplicate-free cache within its
capacity: a membership check or an insertion leaves it duplicate-free and
within capacity; inserting a new key into a full cache (capacity positive)
evicts exactly the least-recently-touched key (the head of the recency
order); and both a membership check and an insertion of an existing key
move that key to the most-recent end. -/
theorem lru_spec (c : LRU) (k : Int) (hnd : c.order.Nodup)
    (hlen : c.order.length ≤ c.maxsize) :
    ((c.containsCheck k).2.order.length ≤ c.maxsize ∧
      (c.containsCheck k).2.order.Nodup) ∧
    ((c.setitem k).order.length ≤ c.maxsize ∧ (c.setitem k).order.Nodup) ∧
    (0 < c.maxsize → c.order.length = c.maxsize → k ∉ c.order →
      (c.setitem k).order = c.order.tail ++ [k]) ∧
    (k ∈ c.order →
      (c.containsCheck k).2.order = c.order.erase k ++ [k] ∧
      (c.setitem k).order = c.order.erase k ++ [k]) := by
  refine ⟨?_, setitem_bounded c k hnd hlen, ?_, ?_⟩
  · by_cases hk : k ∈ c.order
    · rw [containsCheck_hit c k hk]
      exact ⟨by rw [erase_append_length c.order k hk]; exact hlen,
        erase_append_nodup c.order k hnd⟩
    · rw [containsCheck_miss c k hk]
      exact setitem_bounded c k hnd hlen
  · intro hpos hfull hk
    rw [setitem_miss_full c k hk (le_of_eq hfull.symm)]
    cases horder : c.order with
    | nil => rw [horder] at hfull; simp at hfull; omega
    | cons a t => simp
  · intro hk
    rw [containsCheck_hit c k hk, setitem_hit c k hk hlen]
    exact ⟨rfl, rfl⟩

theorem lru_spec_witness :
    (([5, 6] : List Int).Nodup ∧ ([5, 6] : List Int).length ≤ 2) ∧
    (((⟨2, [5, 6]⟩ : LRU).setitem 7).order = [6, 7]) :=
  ⟨⟨by decide, by decide⟩, by
    have h := (lru_spec ⟨2, [5, 6]⟩ 7 (by decide) (by decide)).2.2.1
      (by decide) (by decide) (by decide)
    simpa using h⟩

end HNFeed
namespace HNFeed

/-- Counterexample to claim C2: with the gate closed, an identifier whose structured
resolution would succeed at once is not resolved at all — no resolver body
runs and no record is produced — whereas the same identifier in steady
state is resolved with one structured call.  Resolution is therefore not
"attempted exactly as in steady state" while gated. -/
theorem gated_fetch_counterexample :
    fetch false (worldApi 7) 7 0 = ⟨none, 0, 0, []⟩ ∧
    fetch true (worldApi 7) 7 0 = ⟨some ⟨7, none, none, 100⟩, 1, 0, []⟩ :=
  ⟨rfl, rfl⟩

/-- Amended claim C2: while the gate is closed, an identifier that survives the
dedup check is not resolved: the `fetch` closure returns no record, runs no
resolver body and prints nothing; the dedup check itself still records the
identifier in the cache (here from the fresh epoch state), and nothing is
yielded. -/
theorem gated_no_resolution :
    (∀ env story_id timestamp,
      fetch false env story_id timestamp = ⟨none, 0, 0, []⟩) ∧
    (∀ world clock out i,
      processId world ⟨LRU.empty CAPACITY, false, clock⟩ out i
        = (⟨⟨CAPACITY, [i]⟩, false, clock + 1⟩, out)) := by
  refine ⟨fun env id ts => rfl, fun world clock out i => ?_⟩
  simp [processId, LRU.containsCheck, LRU.empty, LRU.setitem, LRU.touchOrInsert,
    LRU.evict, fetch, CAPACITY]

/-- Counterexample to claim C4: the structured source answers identifier 101 with a
body whose `time` field is 999; a resolution attempted at time 5 emits the
record with `time = 999` — the value from the source — not 5. -/
theorem time_field_counterexample :
    (fetch true ⟨fun _ => some ⟨101, none, none, 999⟩, fun _ => none⟩ 101 5).result
      = some ⟨101, none, none, 999⟩ ∧ (999 : Int) ≠ 5 :=
  ⟨rfl, by decide⟩

/-- Amended claim C4: a record produced by the scrape resolver carries the
requested id and `time` equal to the timestamp of the resolution attempt; a
record produced by the structured resolver is the source's decoded body
verbatim, its `time` field included. -/
theorem time_field_spec (env : FetchEnv) (story_id timestamp : Int) :
    (∀ s ac, api_fetch env = (some s, ac) →
      (fetch true env story_id timestamp).result = some s) ∧
    (∀ ac s, api_fetch env = (none, ac) →
      (fetch true env story_id timestamp).result = some s →
      s.id = story_id ∧ s.time = timestamp) := by
  constructor
  · intro s ac h
    simp [fetch, h]
  · intro ac s h hr
    simp only [fetch, Bool.not_true, Bool.false_eq_true, if_false, h] at hr
    cases hw : web_fetch env story_id timestamp with
    | mk w wc =>
      rw [hw] at hr
      cases w with
      | none => simp at hr
      | some s' =>
        simp at hr
        subst hr
        obtain ⟨k, hk⟩ := retryGo_some (webAttempt env story_id timestamp)
          FETCH_ATTEMPTS 0 s' wc (by rw [← retryRun]; exact hw)
        rw [webAttempt] at hk
        cases hwk : env.web k with
        | none => rw [hwk] at hk; simp at hk
        | some p =>
          rw [hwk] at hk
          simp at hk
          rw [← hk]
          exact ⟨rfl, rfl⟩

theorem time_field_spec_witness :
    ((⟨9, some "t", some "u", 33⟩ : Story).id = 9 ∧
     (⟨9, some "t", some "u", 33⟩ : Story).time = 33) :=
  (time_field_spec ⟨fun _ => none, fun _ => some ("u", "t")⟩ 9 33).2 3
    ⟨9, some "t", some "u", 33⟩ rfl rfl

end HNFeed
namespace HNFeed

/-- World for the batch-continuation scenario: identifier 42 fails both
resolvers on every attempt; every other identifier resolves on the first
structured attempt. -/
def worldC7 : Int → FetchEnv := fun i => if i = 42 then worldNone i else worldApi i

/-- Claim C7: when the structured source fails all three attempts for an
identifier, the scrape resolver is attempted next (three attempt bodies
run); when it also fails all attempts, the invalid-identifier notification
carrying only the id is printed, no record is returned — and, as the
concrete batch `[42, 43]` shows, processing continues with the next
identifier of the batch, which is emitted normally. -/
theorem resolution_exhausted (env : FetchEnv) (story_id timestamp : Int)
    (h1 : ∀ k, k < FETCH_ATTEMPTS → env.api k = none)
    (h2 : ∀ k, k < FETCH_ATTEMPTS → env.web k = none) :
    fetch true env story_id timestamp
      = ⟨none, FETCH_ATTEMPTS, FETCH_ATTEMPTS, [story_id]⟩ ∧
    processEvent worldC7 ⟨LRU.empty CAPACITY, true, 0⟩ Output.empty
        (.batch [42, 43])
      = .ok (⟨⟨CAPACITY, [42, 43]⟩, true, 2⟩,
          ⟨[⟨43, none, none, 100⟩], [42], [42, 43]⟩) := by
  constructor
  · have hapi : api_fetch env = (none, 3) := by
      rw [api_fetch, retryRun_eq]
      simp [h1 0 (by decide), h1 1 (by decide), h1 2 (by decide)]
    have hweb : web_fetch env story_id timestamp = (none, 3) := by
      rw [web_fetch, retryRun_eq]
      simp [webAttempt, h2 0 (by decide), h2 1 (by decide), h2 2 (by decide)]
    simp [fetch, hapi, hweb, FETCH_ATTEMPTS]
  · rfl

theorem resolution_exhausted_witness :
    fetch true (worldNone 42) 42 0
      = ⟨none, FETCH_ATTEMPTS, FETCH_ATTEMPTS, [42]⟩ :=
  (resolution_exhausted (worldNone 42) 42 0 (fun _ _ => rfl) (fun _ _ => rfl)).1

/-- Counterexample to claim C3: an event whose payload yields no identifiers flips
the gate open: processing a nullish event from the fresh, gate-closed epoch
state ends with `enable = true`, because the for-loop's else clause runs
after every event. -/
theorem gate_flip_counterexample :
    processEvent worldNone ⟨LRU.empty CAPACITY, false, 0⟩ Output.empty .nullish
      = .ok (⟨LRU.empty CAPACITY, true, 0⟩, Output.empty) := rfl

/-- Amended claim C3: the gate flips open upon completing the processing of the
first event of an epoch — whether or not its payload yields identifiers —
and every successfully processed event leaves it open, so once open it
stays open for the remainder of the epoch; processing a single identifier
never changes the gate mid-batch. -/
theorem gate_spec :
    (∀ world st out ev r, processEvent world st out ev = .ok r →
      r.1.enable = true) ∧
    (∀ world st out i, ((processId world st out i).1).enable = st.enable) := by
  constructor
  · intro world st out ev r h
    rw [processEvent] at h
    cases hev : load_stories ev with
    | error e => rw [hev] at h; exact absurd h (by simp)
    | ok ids =>
      rw [hev] at h
      simp only [Except.ok.injEq] at h
      subst h
      rfl
  · intro world st out i
    simp only [processId]
    split <;> rfl

theorem gate_spec_witness :
    ((⟨LRU.empty CAPACITY, true, 0⟩, Output.empty) : FeedState × Output).1.enable
      = true :=
  gate_spec.1 worldNone ⟨LRU.empty CAPACITY, false, 0⟩ Output.empty .nullish
    (⟨LRU.empty CAPACITY, true, 0⟩, Output.empty) rfl

/-- Counterexample to claim C5: after a first healthy epoch, an event whose data is
not decodable as JSON raises a decode error that `main` does not catch: the
whole run aborts with the error instead of continuing. -/
theorem malformed_fatal_counterexample :
    runMain worldApi 0 [[.batch [1]], [.malformed]]
      = .error .jsonDecodeError := rfl

/-- Amended claim C5: an event whose data decodes to a falsy payload is treated
as an empty batch and processing continues (the gate still flips); an event
whose data is not decodable as JSON raises `json.JSONDecodeError` inside
`load_stories`, which no handler catches, so it is fatal to the process. -/
theorem malformed_spec (world : Int → FetchEnv) (st : FeedState) (out : Output) :
    processEvent world st out .nullish = .ok (⟨st.cache, true, st.clock⟩, out) ∧
    processEvent world st out .malformed = .error .jsonDecodeError :=
  ⟨rfl, rfl⟩

end HNFeed
namespace HNFeed

theorem processId_gated (world : Int → FetchEnv) (st : FeedState) (out : Output)
    (i : Int) (h : st.enable = false) :
    ((processId world st out i).1).enable = false ∧
    ((processId world st out i).2) = out := by
  constructor
  · simp only [processId, h]
    split <;> rfl
  · simp only [processId, h, fetch]
    split
    · rfl
    · simp

theorem foldl_gated (world : Int → FetchEnv) :
    ∀ (ids : List Int) (st : FeedState) (out : Output), st.enable = false →
      ((ids.foldl (fun p i => processId world p.1 p.2 i) (st, out)).2) = out := by
  intro ids
  induction ids with
  | nil => intro st out h; rfl
  | cons a t ih =>
    intro st out h
    have h1 := processId_gated world st out a h
    simp only [List.foldl_cons]
    rw [show processId world (st, out).1 (st, out).2 a
        = ((processId world st out a).1, (processId world st out a).2) from rfl]
    rw [ih (processId world st out a).1 (processId world st out a).2 h1.1, h1.2]

/-- Claim C6: an event processed from the fresh, gate-closed epoch state emits no
story records, whatever the resolvers would answer; once the gate is open,
an unseen identifier whose fetch resolves successfully has its record
appended to the emitted stories. -/
theorem first_batch_gate (world : Int → FetchEnv) :
    (∀ clock out ev r,
      processEvent world ⟨LRU.empty CAPACITY, false, clock⟩ out ev = .ok r →
      r.2.stories = out.stories) ∧
    (∀ st out i s, st.enable = true → (st.cache.containsCheck i).1 = false →
      (fetch true (world i) i st.clock).result = some s →
      (processId world st out i).2.stories = out.stories ++ [s]) := by
  constructor
  · intro clock out ev r h
    rw [processEvent] at h
    cases hev : load_stories ev with
    | error e => rw [hev] at h; exact absurd h (by simp)
    | ok ids =>
      rw [hev] at h
      simp only [Except.ok.injEq] at h
      subst h
      simp only
      rw [foldl_gated world ids ⟨LRU.empty CAPACITY, false, clock⟩ out rfl]
  · intro st out i s he hfc hr
    simp only [processId, hfc, he, Bool.false_eq_true, if_false, hr]

theorem first_batch_gate_witness :
    ((⟨⟨CAPACITY, [5]⟩, true, 1⟩, Output.empty) : FeedState × Output).2.stories
      = Output.empty.stories ∧
    (processId worldApi ⟨LRU.empty CAPACITY, true, 0⟩ Output.empty 5).2.stories
      = Output.empty.stories ++ [⟨5, none, none, 100⟩] :=
  ⟨(first_batch_gate worldApi).1 0 Output.empty (.batch [5])
      (⟨⟨CAPACITY, [5]⟩, true, 1⟩, Output.empty) rfl,
   (first_batch_gate worldApi).2 ⟨LRU.empty CAPACITY, true, 0⟩ Output.empty 5
      ⟨5, none, none, 100⟩ rfl rfl rfl⟩

/-- Claim C10: `load_stories` hands the orchestrator the batch sorted ascending
(a sorted permutation of the payload's `data` list), so resolution and
emission follow ascending identifier order; concretely, the batch `[3,1,2]`
is processed as `1, 2, 3`: the resolver runs in that order and the three
records are emitted in that order. -/
theorem batch_sorted (ids l : List Int)
    (h : load_stories (.batch ids) = .ok l) :
    l.Sorted (· ≤ ·) ∧ l.Perm ids ∧
    processEvent worldApi ⟨LRU.empty CAPACITY, true, 0⟩ Output.empty
        (.batch [3, 1, 2])
      = .ok (⟨⟨CAPACITY, [1, 2, 3]⟩, true, 3⟩,
          ⟨[⟨1, none, none, 100⟩, ⟨2, none, none, 100⟩, ⟨3, none, none, 100⟩],
           [], [1, 2, 3]⟩) := by
  have hl : l = List.insertionSort (· ≤ ·) ids := by
    rw [load_stories] at h
    simp only [Except.ok.injEq] at h
    exact h.symm
  subst hl
  exact ⟨List.sorted_insertionSort _ _, List.perm_insertionSort _ _, rfl⟩

theorem batch_sorted_witness :
    ([1, 2, 3] : List Int).Sorted (· ≤ ·) ∧ ([1, 2, 3] : List Int).Perm [3, 1, 2] :=
  ⟨(batch_sorted [3, 1, 2] [1, 2, 3] rfl).1,
   (batch_sorted [3, 1, 2] [1, 2, 3] rfl).2.1⟩

end HNFeed
namespace HNFeed

/-- Counterexample to claim C1: identifier 42 is recorded in the dedup cache during
epoch 1 (whose only event is the gated first batch), yet after the
disruption and reconnect the run re-resolves it: in epoch 2 the resolver
runs for 42 and its record is emitted, because `main` re-enters
`hackernews_feed`, which builds a fresh `LRU(1024)`. -/
theorem cache_lifetime_counterexample :
    runEpoch worldApi 0 Output.empty [.batch [42]]
      = .ok (⟨⟨CAPACITY, [42]⟩, true, 1⟩, Output.empty) ∧
    runMain worldApi 0 [[.batch [42]], [.nullish, .batch [42]]]
      = .ok (2, ⟨[⟨42, none, none, 100⟩], [], [42]⟩) :=
  ⟨rfl, rfl⟩

/-- Amended claim C1: no state is carried across reconnects — each epoch starts
with a fresh dedup cache and a closed gate, and only the wall clock spans
the process lifetime.  Whatever the world answers, an identifier recorded
in the cache during a one-event first epoch is forgotten after the
disruption: the second epoch resolves it again (here it resolves on the
first structured attempt and is emitted). -/
theorem cache_reset_on_reconnect (world : Int → FetchEnv) (i : Int) (s : Story)
    (h : (world i).api 0 = some s) :
    runEpoch world 0 Output.empty [.batch [i]]
      = .ok (⟨⟨CAPACITY, [i]⟩, true, 1⟩, Output.empty) ∧
    runMain world 0 [[.batch [i]], [.nullish, .batch [i]]]
      = .ok (2, ⟨[s], [], [i]⟩) := by
  have hfetch : fetch true (world i) i 1 = ⟨some s, 1, 0, []⟩ := by
    have hapi : api_fetch (world i) = (some s, 1) := by
      rw [api_fetch, retryRun_eq, h]
    simp [fetch, hapi]
  have e2b : processEvent world ⟨LRU.empty CAPACITY, true, 1⟩ Output.empty
      (.batch [i])
      = .ok (⟨⟨CAPACITY, [i]⟩, true, 2⟩, ⟨[s], [], [i]⟩) := by
    simp [processEvent, load_stories, List.insertionSort, List.orderedInsert,
      processId, LRU.containsCheck, LRU.empty, LRU.setitem, LRU.touchOrInsert,
      LRU.evict, hfetch, Output.empty, CAPACITY]
  have e1 : runEpoch world 0 Output.empty [.batch [i]]
      = .ok (⟨⟨CAPACITY, [i]⟩, true, 1⟩, Output.empty) := rfl
  have e2a : processEvent world ⟨LRU.empty CAPACITY, false, 1⟩ Output.empty
      .nullish = .ok (⟨LRU.empty CAPACITY, true, 1⟩, Output.empty) := rfl
  have e2 : runEpoch world 1 Output.empty [.nullish, .batch [i]]
      = .ok (⟨⟨CAPACITY, [i]⟩, true, 2⟩, ⟨[s], [], [i]⟩) := by
    simp only [runEpoch, List.foldlM, e2a]
    exact e2b
  constructor
  · exact e1
  · simp only [runMain, List.foldlM, e1]
    show Except.map (fun r => (r.1.clock, r.2))
        (runEpoch world 1 Output.empty [.nullish, .batch [i]])
      = .ok (2, ⟨[s], [], [i]⟩)
    rw [e2]
    rfl

theorem cache_reset_on_reconnect_witness :
    runMain worldApi 0 [[.batch [42]], [.nullish, .batch [42]]]
      = .ok (2, ⟨[⟨42, none, none, 100⟩], [], [42]⟩) :=
  (cache_reset_on_reconnect worldApi 42 ⟨42, none, none, 100⟩ rfl).2

end HNFeed
